import Mathlib

/-!
Shallow embedding of the DeenVerse connection subsystem:
the Connection and Notification models (src/backend/src/models/Connection.js,
notification model in src/backend/src/models/Post.js), the User schema
(src/backend/src/models/User.js), and the controller operations
requestConnection / getConnectionRequests / acceptConnection / rejectConnection
(src/backend/src/controllers/imaamController.js) and
followUser / unfollowUser / getUsers (user controller).

Documents are modelled as records, the Mongo store as lists of documents, and
each controller as a function from a store state to a new state plus a result.
ObjectIds are modelled as natural numbers; timestamps as a natural-number clock
held in the state.  A thrown `AppError` (surfaced by the `catchAsync` wrapper,
which is not part of the provided sources; modelled from the spec where §7 says
all errors are surfaced to the caller as structured failure responses) becomes
an `Except.error` result.
-/

deriving instance DecidableEq for Except

namespace DeenVerse

/-- Connection status enumeration of connectionSchema. -/
inductive ConnStatus
  | pending
  | accepted
  | rejected
  | blocked
deriving DecidableEq, Repr

/-- Connection type enumeration of connectionSchema. -/
inductive ConnType
  | studentTeacher
  | peer
  | mentorMentee
deriving DecidableEq, Repr

/-- Role enumeration of userSchema. -/
inductive Role
  | student
  | imaam
  | admin
deriving DecidableEq, Repr

/-- Priority enumeration of notificationSchema. -/
inductive Priority
  | low
  | medium
  | high
  | urgent
deriving DecidableEq, Repr

/-- Type enumeration of notificationSchema. -/
inductive NotifType
  | connectionRequest
  | connectionAccepted
  | postLike
  | postComment
  | commentLike
  | newFollower
  | lessonReminder
  | systemAnnouncement
  | messageReceived
deriving DecidableEq, Repr

/-- relatedEntityType enumeration of notificationSchema. -/
inductive RelEntityType
  | post
  | comment
  | user
  | connection
  | lesson
deriving DecidableEq, Repr

/-- A User document, restricted to the fields the connection subsystem reads
or writes.  The userSchema declares NO connectionsCount path: the only
occurrences of that name in the repository are the six findByIdAndUpdate
call sites, so no user document ever carries such a field. -/
structure Account where
  id : Nat
  fullName : String
  role : Role
  isVerified : Bool
  isActive : Bool
  createdAt : Nat
deriving DecidableEq, Repr

/-- A Connection document (connectionSchema). -/
structure ConnRecord where
  id : Nat
  requester : Nat
  recipient : Nat
  status : ConnStatus
  ctype : ConnType
  message : String
  acceptedAt : Option Nat
  lastInteraction : Nat
  createdAt : Nat
deriving DecidableEq, Repr

/-- A Notification document (notificationSchema). -/
structure Notif where
  recipient : Nat
  sender : Option Nat
  ntype : NotifType
  title : String
  message : String
  relatedEntity : Option Nat
  relatedEntityType : Option RelEntityType
  isRead : Bool
  readAt : Option Nat
  priority : Priority
  actionData : List (String × String)
deriving DecidableEq, Repr

/-- Argument object of Notification.createNotification. -/
structure NotifData where
  recipient : Nat
  sender : Option Nat
  ntype : NotifType
  title : String
  message : String
  relatedEntity : Option Nat
  relatedEntityType : Option RelEntityType
  priority : Option Priority
  actionData : List (String × String)
deriving DecidableEq, Repr

/-- The document store: the three collections the connection subsystem touches,
a fresh-id counter for connection documents, and the current clock. -/
structure DB where
  users : List Account
  connections : List ConnRecord
  notifications : List Notif
  nextConnId : Nat
  now : Nat
deriving DecidableEq, Repr

/-- An AppError value as constructed in the controllers: a message and an HTTP
status code. -/
structure AppError where
  message : String
  statusCode : Nat
deriving DecidableEq, Repr

/-- Failure outcomes of an operation: a thrown AppError, the E11000
duplicate-key error raised by the unique index on the ordered pair
(requester, recipient), or a failure of the notification-store write (the
fault the spec discusses for Notification.createNotification). -/
inductive OpError
  | app (e : AppError)
  | duplicateKey
  | notificationWriteFailed
deriving DecidableEq, Repr

/-! ## Notification model (notificationSchema statics and hooks) -/

/-- The priorityMap table of the notificationSchema pre-save hook.  Every
value of the closed type enumeration has an entry, so the JS fallback
of medium for a type outside the table is unreachable. -/
def priorityMap : NotifType → Priority
  | .connectionRequest => .medium
  | .connectionAccepted => .medium
  | .postLike => .low
  | .postComment => .medium
  | .commentLike => .low
  | .newFollower => .low
  | .lessonReminder => .high
  | .systemAnnouncement => .high
  | .messageReceived => .high

/-- The notificationSchema pre-save hook on a new document: when the priority
is (still) medium it is replaced by the table value for the type.  The JS
guard also fires on a falsy priority, which cannot occur because the schema
default and createNotification both fill in medium. -/
def preSaveNotif (n : Notif) : Notif :=
  if n.priority = Priority.medium then { n with priority := priorityMap n.ntype } else n

/-- Notification.createNotification: builds the document (missing priority
defaults to medium) and saves it, which runs the pre-save hook. -/
def createNotification (d : NotifData) : Notif :=
  preSaveNotif
    { recipient := d.recipient
      sender := d.sender
      ntype := d.ntype
      title := d.title
      message := d.message
      relatedEntity := d.relatedEntity
      relatedEntityType := d.relatedEntityType
      isRead := false
      readAt := none
      priority := d.priority.getD Priority.medium
      actionData := d.actionData }

/-! ## Connection model statics and user-counter updates -/

/-- Unordered-pair predicate used by Connection.getConnection and the
controllers: the document links the two given users in either direction. -/
def pairMatches (u1 u2 : Nat) (c : ConnRecord) : Bool :=
  (c.requester == u1 && c.recipient == u2) || (c.requester == u2 && c.recipient == u1)

/-- Connection.getConnection: findOne over both directions of the pair. -/
def getConnection (db : DB) (u1 u2 : Nat) : Option ConnRecord :=
  db.connections.find? (pairMatches u1 u2)

/-- User.findByIdAndUpdate with a relative-delta update on connectionsCount,
as written in the controllers.  The userSchema declares no connectionsCount
path and never disables strict mode, and Mongoose's default strict mode
strips unknown paths from update operations, so the issued update mutates
nothing: the store is returned unchanged. -/
def incConnectionsCount (db : DB) (_uid : Nat) (_delta : Int) : DB :=
  db

/-- Connection.create: the pre-save hook rejects a self-connection, the unique
index on the ordered pair (requester, recipient) rejects a duplicate with
E11000, otherwise the document is appended; the post-save hook issues the
two counter updates when a document is first saved already accepted (dead
in the current flows, which always create pending; the updates are stripped
anyway, see incConnectionsCount). -/
def insertConnection (db : DB) (requester recipient : Nat) (ctype : ConnType)
    (message : String) (status : ConnStatus) : Except OpError (DB × ConnRecord) :=
  if requester == recipient then
    .error (.app ⟨"Cannot connect to yourself", 400⟩)
  else if db.connections.any fun c => c.requester == requester && c.recipient == recipient then
    .error .duplicateKey
  else
    let doc : ConnRecord :=
      { id := db.nextConnId
        requester := requester
        recipient := recipient
        status := status
        ctype := ctype
        message := message
        acceptedAt := none
        lastInteraction := db.now
        createdAt := db.now }
    let db1 : DB :=
      { db with connections := db.connections ++ [doc], nextConnId := db.nextConnId + 1 }
    let db2 : DB :=
      if status == ConnStatus.accepted then
        incConnectionsCount (incConnectionsCount db1 requester 1) recipient 1
      else db1
    .ok (db2, doc)

/-- connection.accept(): sets status, acceptedAt and lastInteraction on the
document and saves it back by its _id. -/
def acceptRecord (db : DB) (cid : Nat) : DB :=
  { db with
    connections := db.connections.map fun c =>
      if c.id == cid then
        { c with status := .accepted, acceptedAt := some db.now, lastInteraction := db.now }
      else c }

/-- connection.reject(): sets status and lastInteraction and saves back. -/
def rejectRecord (db : DB) (cid : Nat) : DB :=
  { db with
    connections := db.connections.map fun c =>
      if c.id == cid then { c with status := .rejected, lastInteraction := db.now } else c }

/-! ## Controller operations

Each controller returns the post-state together with an `Except` result.
`notifOk` says whether the notification-store write performed by the
operation succeeds; when it fails the exception propagates (via catchAsync)
after the connection-state change has already been persisted. -/

/-- Tail of imaamController.requestConnection after the duplicate guard fell
through: create the pending student-teacher document, then write the
connection-request notification for the imaam. -/
def createAndNotifyRequest (notifOk : Bool) (db : DB) (studentId imaamId : Nat)
    (msg : Option String) (senderName : String) : DB × Except OpError ConnRecord :=
  match insertConnection db studentId imaamId ConnType.studentTeacher
      (msg.getD "") ConnStatus.pending with
  | .error e => (db, .error e)
  | .ok (db1, doc) =>
    if notifOk then
      let n := createNotification
        { recipient := imaamId
          sender := some studentId
          ntype := .connectionRequest
          title := "New Connection Request"
          message := senderName ++ " wants to connect with you"
          relatedEntity := some doc.id
          relatedEntityType := some .connection
          priority := none
          actionData :=
            [("connectionId", toString doc.id), ("requesterName", senderName)] }
      ({ db1 with notifications := db1.notifications ++ [n] }, .ok doc)
    else
      (db1, .error .notificationWriteFailed)

/-- imaamController.requestConnection.  `msg` is the optional request body
message (the controller stores `message or empty`); `senderName` is
req.user.fullName.  A found document with status rejected or blocked falls
through to creation, as in the JS conditional. -/
def requestConnection (notifOk : Bool) (db : DB) (studentId imaamId : Nat)
    (msg : Option String) (senderName : String) : DB × Except OpError ConnRecord :=
  if imaamId == studentId then
    (db, .error (.app ⟨"Cannot connect to yourself", 400⟩))
  else
    match db.users.find? fun a =>
        a.id == imaamId && a.role == Role.imaam && a.isVerified && a.isActive with
    | none => (db, .error (.app ⟨"Imaam not found or not verified", 404⟩))
    | some _ =>
      match getConnection db studentId imaamId with
      | some c =>
        if c.status = ConnStatus.accepted then
          (db, .error (.app ⟨"Already connected to this Imaam", 400⟩))
        else if c.status = ConnStatus.pending then
          (db, .error (.app ⟨"Connection request already pending", 400⟩))
        else createAndNotifyRequest notifOk db studentId imaamId msg senderName
      | none => createAndNotifyRequest notifOk db studentId imaamId msg senderName

/-- Predicate of the findOne guard in acceptConnection and rejectConnection:
the document with the given _id, whose recipient is the acting user, still
pending. -/
def acceptGuard (connectionId actingUser : Nat) (c : ConnRecord) : Bool :=
  c.id == connectionId && c.recipient == actingUser && c.status == ConnStatus.pending

/-- imaamController.acceptConnection: guard, connection.accept(), two
relative-delta counter updates, then the connection-accepted notification. -/
def acceptConnection (notifOk : Bool) (db : DB) (connectionId actingUser : Nat)
    (actingName : String) : DB × Except OpError ConnRecord :=
  match db.connections.find? (acceptGuard connectionId actingUser) with
  | none => (db, .error (.app ⟨"Connection request not found", 404⟩))
  | some c =>
    let db1 := acceptRecord db c.id
    let db2 := incConnectionsCount db1 c.requester 1
    let db3 := incConnectionsCount db2 c.recipient 1
    let updated : ConnRecord :=
      { c with status := .accepted, acceptedAt := some db.now, lastInteraction := db.now }
    if notifOk then
      let n := createNotification
        { recipient := c.requester
          sender := some c.recipient
          ntype := .connectionAccepted
          title := "Connection Accepted"
          message := actingName ++ " accepted your connection request"
          relatedEntity := some c.id
          relatedEntityType := some .connection
          priority := none
          actionData := [("connectionId", toString c.id), ("imaamName", actingName)] }
      ({ db3 with notifications := db3.notifications ++ [n] }, .ok updated)
    else
      (db3, .error .notificationWriteFailed)

/-- imaamController.rejectConnection: same guard, connection.reject(), no
counter updates and no notification. -/
def rejectConnection (db : DB) (connectionId actingUser : Nat) :
    DB × Except OpError Unit :=
  match db.connections.find? (acceptGuard connectionId actingUser) with
  | none => (db, .error (.app ⟨"Connection request not found", 404⟩))
  | some c => (rejectRecord db c.id, .ok ())

/-- Tail of userController.followUser after the duplicate guard fell through:
create the pending peer document (no notification is written). -/
def createPeerFollow (db : DB) (currentUserId targetUserId : Nat) :
    DB × Except OpError ConnRecord :=
  match insertConnection db currentUserId targetUserId ConnType.peer ""
      ConnStatus.pending with
  | .error e => (db, .error e)
  | .ok (db1, doc) => (db1, .ok doc)

/-- userController.followUser: self-check, target existence and activity
check, both-direction duplicate check, then creation of a pending peer
connection.  A found document with status rejected or blocked falls through
to creation, as in the JS conditional.  No notification is created. -/
def followUser (db : DB) (currentUserId targetUserId : Nat) :
    DB × Except OpError ConnRecord :=
  if targetUserId == currentUserId then
    (db, .error (.app ⟨"Cannot follow yourself", 400⟩))
  else
    match db.users.find? fun a => a.id == targetUserId with
    | none => (db, .error (.app ⟨"User not found", 404⟩))
    | some u =>
      if !u.isActive then (db, .error (.app ⟨"User not found", 404⟩))
      else
        match getConnection db currentUserId targetUserId with
        | some c =>
          if c.status = ConnStatus.accepted then
            (db, .error (.app ⟨"Already following this user", 400⟩))
          else if c.status = ConnStatus.pending then
            (db, .error (.app ⟨"Connection request already pending", 400⟩))
          else createPeerFollow db currentUserId targetUserId
        | none => createPeerFollow db currentUserId targetUserId

/-- Predicate of the findOneAndDelete in unfollowUser: an accepted document
between the two users, in either direction. -/
def unfollowPred (currentUserId targetUserId : Nat) (c : ConnRecord) : Bool :=
  (c.requester == currentUserId && c.recipient == targetUserId
      && c.status == ConnStatus.accepted)
    || (c.requester == targetUserId && c.recipient == currentUserId
      && c.status == ConnStatus.accepted)

/-- userController.unfollowUser: findOneAndDelete of the accepted document
(either direction), then two relative-delta decrements. -/
def unfollowUser (db : DB) (currentUserId targetUserId : Nat) :
    DB × Except OpError Unit :=
  match db.connections.find? (unfollowPred currentUserId targetUserId) with
  | none => (db, .error (.app ⟨"Not following this user", 404⟩))
  | some _ =>
    let db1 := { db with
      connections := db.connections.eraseP (unfollowPred currentUserId targetUserId) }
    let db2 := incConnectionsCount db1 currentUserId (-1)
    let db3 := incConnectionsCount db2 targetUserId (-1)
    (db3, .ok ())

/-- Insertion into a list kept sorted by descending key. -/
def insertDesc {α : Type} (key : α → Nat) (a : α) : List α → List α
  | [] => [a]
  | x :: xs => if key x ≤ key a then a :: x :: xs else x :: insertDesc key a xs

/-- Sort by descending key (models the createdAt minus-one sort). -/
def sortDesc {α : Type} (key : α → Nat) : List α → List α
  | [] => []
  | x :: xs => insertDesc key x (sortDesc key xs)

/-- Connection.getPendingConnections: pending documents addressed to the
user, newest first, with skip/limit paging. -/
def getPendingConnections (db : DB) (userId page limit : Nat) : List ConnRecord :=
  let skip := (page - 1) * limit
  let matching := db.connections.filter fun c =>
    c.recipient == userId && c.status == ConnStatus.pending
  ((sortDesc ConnRecord.createdAt matching).drop skip).take limit

/-! ## Response bodies

A fragment of JSON large enough to state which fields a response body
carries. -/

/-- JSON values. -/
inductive JVal
  | jNum (n : Int)
  | jBool (b : Bool)
  | jStr (s : String)
  | jNull
  | jArr (xs : List JVal)
  | jObj (fields : List (String × JVal))

/-- Field lookup on a JSON object (none on any other value). -/
def JVal.getField : JVal → String → Option JVal
  | .jObj fields, k => (fields.find? fun p => p.fst == k).map Prod.snd
  | _, _ => none

/-- Whether a JSON object carries the given field. -/
def JVal.hasField (j : JVal) (k : String) : Bool :=
  (j.getField k).isSome

/-- Status values as serialized by the API. -/
def ConnStatus.toJson : ConnStatus → String
  | .pending => "pending"
  | .accepted => "accepted"
  | .rejected => "rejected"
  | .blocked => "blocked"

/-- Serialization of a connection document (the fields relevant here). -/
def connToJson (c : ConnRecord) : JVal :=
  .jObj
    [("_id", .jNum c.id), ("requester", .jNum c.requester),
     ("recipient", .jNum c.recipient), ("status", .jStr c.status.toJson),
     ("message", .jStr c.message)]

/-- Serialization of a user document (the fields relevant here). -/
def userToJson (a : Account) : JVal :=
  .jObj [("_id", .jNum a.id), ("fullName", .jStr a.fullName)]

/-- imaamController.getConnectionRequests: the pending list for the acting
user wrapped as success plus data, nothing else. -/
def getConnectionRequestsBody (db : DB) (userId page limit : Nat) : JVal :=
  let requests := getPendingConnections db userId page limit
  .jObj [("success", .jBool true), ("data", .jArr (requests.map connToJson))]

/-- userController.getUsers restricted to its default filter (isActive), with
the pagination object exactly as the controller writes it: note the
totalUsers key. -/
def getUsersBody (db : DB) (page limit : Nat) : JVal :=
  let skip := (page - 1) * limit
  let filtered := db.users.filter fun a => a.isActive
  let users := (((sortDesc Account.createdAt filtered).drop skip).take limit)
  let total := filtered.length
  let totalPages := (total + limit - 1) / limit
  .jObj
    [("success", .jBool true),
     ("data", .jObj
       [("users", .jArr (users.map userToJson)),
        ("pagination", .jObj
          [("currentPage", .jNum page),
           ("totalPages", .jNum totalPages),
           ("totalUsers", .jNum total),
           ("hasNext", .jBool (page < totalPages)),
           ("hasPrev", .jBool (1 < page))])])]

/-- imaamController.getImaamList (default rating sort elided to the verified
active imaam filter), with the pagination object exactly as that controller
writes it: note the totalItems key. -/
def getImaamListBody (db : DB) (page limit : Nat) : JVal :=
  let skip := (page - 1) * limit
  let filtered := db.users.filter fun a =>
    a.role == Role.imaam && a.isVerified && a.isActive
  let imaam := ((filtered.drop skip).take limit)
  let total := filtered.length
  let totalPages := (total + limit - 1) / limit
  .jObj
    [("success", .jBool true),
     ("data", .jObj
       [("imaam", .jArr (imaam.map userToJson)),
        ("pagination", .jObj
          [("currentPage", .jNum page),
           ("totalPages", .jNum totalPages),
           ("totalItems", .jNum total),
           ("hasNext", .jBool (page < totalPages)),
           ("hasPrev", .jBool (1 < page))])])]

/-! ## The exposed operations as a transition relation -/

/-- One request handled by any of the exposed connection operations, with
arbitrary arguments and arbitrary notification-store behaviour. -/
inductive Step : DB → DB → Prop
  | request (notifOk : Bool) (db : DB) (s t : Nat) (msg : Option String) (name : String) :
      Step db (requestConnection notifOk db s t msg name).fst
  | follow (db : DB) (cur tgt : Nat) :
      Step db (followUser db cur tgt).fst
  | accept (notifOk : Bool) (db : DB) (cid u : Nat) (name : String) :
      Step db (acceptConnection notifOk db cid u name).fst
  | reject (db : DB) (cid u : Nat) :
      Step db (rejectConnection db cid u).fst
  | unfollow (db : DB) (cur tgt : Nat) :
      Step db (unfollowUser db cur tgt).fst

/-- Reachability under the exposed operations. -/
def Reachable : DB → DB → Prop :=
  Relation.ReflTransGen Step

/-- At most one connection document per ordered pair: the property the unique
index on (requester, recipient) maintains. -/
abbrev orderedPairUnique (db : DB) : Prop :=
  db.connections.Pairwise fun a b => a.requester ≠ b.requester ∨ a.recipient ≠ b.recipient

/-- At most one connection document for the unordered pair of the two given
users. -/
abbrev unorderedPairAtMostOne (db : DB) (u1 u2 : Nat) : Prop :=
  db.connections.countP (pairMatches u1 u2) ≤ 1

/-- Distinct documents carry distinct ids (true of Mongo _id values). -/
abbrev connIdsUnique (db : DB) : Prop :=
  db.connections.Pairwise fun a b => a.id ≠ b.id

/-! ## Helper lemmas -/

/-- A predicate matched at most once matches a unique element. -/
theorem countP_le_one_unique {α : Type} (l : List α) (p : α → Bool)
    (h : l.countP p ≤ 1) :
    ∀ a ∈ l, ∀ b ∈ l, p a = true → p b = true → a = b := by
  induction l with
  | nil => intro a ha; simp at ha
  | cons x xs ih =>
    intro a ha b hb hpa hpb
    rw [List.countP_cons] at h
    by_cases hx : p x = true
    · have hzero : xs.countP p = 0 := by
        rw [if_pos hx] at h; omega
      have hnone : ∀ y ∈ xs, ¬p y = true := List.countP_eq_zero.mp hzero
      have ha' : a = x := by
        rcases List.mem_cons.mp ha with h1 | h1
        · exact h1
        · exact absurd hpa (hnone a h1)
      have hb' : b = x := by
        rcases List.mem_cons.mp hb with h1 | h1
        · exact h1
        · exact absurd hpb (hnone b h1)
      rw [ha', hb']
    · have hxf : p x = false := by simpa using hx
      have ha' : a ∈ xs := by
        rcases List.mem_cons.mp ha with h1 | h1
        · rw [h1] at hpa; rw [hpa] at hxf; cases hxf
        · exact h1
      have hb' : b ∈ xs := by
        rcases List.mem_cons.mp hb with h1 | h1
        · rw [h1] at hpb; rw [hpb] at hxf; cases hxf
        · exact h1
      have hle : xs.countP p ≤ 1 := by rw [if_neg hx] at h; omega
      exact ih hle a ha' b hb' hpa hpb

/-- Characterization of a successful pending insert: the document is appended,
users and notifications are untouched, the document's fields are fixed, and
no document with the same ordered pair predated it. -/
theorem insertConnection_pending_ok (db : DB) (r t : Nat) (ty : ConnType) (m : String)
    (db' : DB) (doc : ConnRecord)
    (h : insertConnection db r t ty m .pending = .ok (db', doc)) :
    db'.connections = db.connections ++ [doc]
      ∧ db'.users = db.users
      ∧ db'.notifications = db.notifications
      ∧ doc = { id := db.nextConnId, requester := r, recipient := t,
                status := .pending, ctype := ty, message := m, acceptedAt := none,
                lastInteraction := db.now, createdAt := db.now }
      ∧ (∀ c ∈ db.connections, ¬(c.requester = r ∧ c.recipient = t)) := by
  unfold insertConnection at h
  split at h
  · cases h
  · split at h
    · cases h
    · rename_i hself hdup
      rw [show (ConnStatus.pending == ConnStatus.accepted) = false from rfl] at h
      simp only [Bool.false_eq_true, if_false, Except.ok.injEq, Prod.mk.injEq] at h
      obtain ⟨hdb, hdoc⟩ := h
      have hany : ∀ c ∈ db.connections, ¬(c.requester == r && c.recipient == t) = true := by
        rw [← List.any_eq_false]
        exact Bool.eq_false_iff.mpr (by simpa using hdup)
      refine ⟨?_, ?_, ?_, ?_, ?_⟩
      · rw [← hdb, ← hdoc]
      · rw [← hdb]
      · rw [← hdb]
      · rw [← hdoc]
      · intro c hc ⟨h1, h2⟩
        exact hany c hc (by simp [h1, h2])

/-- The request tail either leaves the store unchanged (insert failure) or
appends one fresh pending document for the ordered pair. -/
theorem createAndNotifyRequest_fst_cases (notifOk : Bool) (db : DB) (s t : Nat)
    (msg : Option String) (name : String) :
    ((createAndNotifyRequest notifOk db s t msg name).fst.connections = db.connections
      ∧ (createAndNotifyRequest notifOk db s t msg name).fst.users = db.users)
    ∨ ∃ doc, doc.status = ConnStatus.pending ∧ doc.requester = s ∧ doc.recipient = t
        ∧ (createAndNotifyRequest notifOk db s t msg name).fst.connections
            = db.connections ++ [doc]
        ∧ (createAndNotifyRequest notifOk db s t msg name).fst.users = db.users
        ∧ (∀ c ∈ db.connections, ¬(c.requester = s ∧ c.recipient = t)) := by
  unfold createAndNotifyRequest
  split
  · exact Or.inl ⟨rfl, rfl⟩
  · rename_i db1 doc hins
    obtain ⟨hconn, husers, hnotifs, hdoc, hfree⟩ :=
      insertConnection_pending_ok db s t _ _ db1 doc hins
    refine Or.inr ⟨doc, ?_, ?_, ?_, ?_, ?_, hfree⟩
    · rw [hdoc]
    · rw [hdoc]
    · rw [hdoc]
    · split <;> simpa using hconn
    · split <;> simpa using husers

/-- A request either leaves the store unchanged or appends one fresh pending
document for the ordered pair (s, t), which had no document before. -/
theorem requestConnection_fst_cases (notifOk : Bool) (db : DB) (s t : Nat)
    (msg : Option String) (name : String) :
    ((requestConnection notifOk db s t msg name).fst.connections = db.connections
      ∧ (requestConnection notifOk db s t msg name).fst.users = db.users)
    ∨ ∃ doc, doc.status = ConnStatus.pending ∧ doc.requester = s ∧ doc.recipient = t
        ∧ (requestConnection notifOk db s t msg name).fst.connections
            = db.connections ++ [doc]
        ∧ (requestConnection notifOk db s t msg name).fst.users = db.users
        ∧ (∀ c ∈ db.connections, ¬(c.requester = s ∧ c.recipient = t)) := by
  unfold requestConnection
  split
  · exact Or.inl ⟨rfl, rfl⟩
  · split
    · exact Or.inl ⟨rfl, rfl⟩
    · split
      · split
        · exact Or.inl ⟨rfl, rfl⟩
        · split
          · exact Or.inl ⟨rfl, rfl⟩
          · exact createAndNotifyRequest_fst_cases notifOk db s t msg name
      · exact createAndNotifyRequest_fst_cases notifOk db s t msg name

/-- The follow tail either leaves the store unchanged (insert failure) or
appends one fresh pending document for the ordered pair; notifications never
change. -/
theorem createPeerFollow_fst_cases (db : DB) (cur tgt : Nat) :
    ((createPeerFollow db cur tgt).fst = db)
    ∨ ∃ doc, doc.status = ConnStatus.pending ∧ doc.requester = cur ∧ doc.recipient = tgt
        ∧ (createPeerFollow db cur tgt).fst.connections = db.connections ++ [doc]
        ∧ (createPeerFollow db cur tgt).fst.users = db.users
        ∧ (createPeerFollow db cur tgt).fst.notifications = db.notifications
        ∧ (∀ c ∈ db.connections, ¬(c.requester = cur ∧ c.recipient = tgt)) := by
  unfold createPeerFollow
  split
  · exact Or.inl rfl
  · rename_i db1 doc hins
    obtain ⟨hconn, husers, hnotifs, hdoc, hfree⟩ :=
      insertConnection_pending_ok db cur tgt _ _ db1 doc hins
    exact Or.inr ⟨doc, (by rw [hdoc]), (by rw [hdoc]), (by rw [hdoc]),
      hconn, husers, hnotifs, hfree⟩

/-- A follow either leaves the store unchanged or appends one fresh pending
document for the ordered pair (cur, tgt); notifications never change. -/
theorem followUser_fst_cases (db : DB) (cur tgt : Nat) :
    ((followUser db cur tgt).fst = db)
    ∨ ∃ doc, doc.status = ConnStatus.pending ∧ doc.requester = cur ∧ doc.recipient = tgt
        ∧ (followUser db cur tgt).fst.connections = db.connections ++ [doc]
        ∧ (followUser db cur tgt).fst.users = db.users
        ∧ (followUser db cur tgt).fst.notifications = db.notifications
        ∧ (∀ c ∈ db.connections, ¬(c.requester = cur ∧ c.recipient = tgt)) := by
  unfold followUser
  split
  · exact Or.inl rfl
  · split
    · exact Or.inl rfl
    · split
      · exact Or.inl rfl
      · split
        · split
          · exact Or.inl rfl
          · split
            · exact Or.inl rfl
            · exact createPeerFollow_fst_cases db cur tgt
        · exact createPeerFollow_fst_cases db cur tgt

/-- An accept either leaves the store unchanged or rewrites the guarded
document (and every document sharing its id) to accepted. -/
theorem acceptConnection_fst_cases (notifOk : Bool) (db : DB) (cid u : Nat)
    (name : String) :
    ((acceptConnection notifOk db cid u name).fst = db)
    ∨ ∃ c, db.connections.find? (acceptGuard cid u) = some c
        ∧ (acceptConnection notifOk db cid u name).fst.connections
            = db.connections.map fun x =>
                if x.id == c.id then
                  { x with
                    status := .accepted
                    acceptedAt := some db.now
                    lastInteraction := db.now }
                else x := by
  unfold acceptConnection
  split
  · exact Or.inl rfl
  · rename_i c hfind
    refine Or.inr ⟨c, hfind, ?_⟩
    split <;> simp [incConnectionsCount, acceptRecord]

/-- A reject either leaves the store unchanged or rewrites the guarded
document (and every document sharing its id) to rejected; users and
notifications never change. -/
theorem rejectConnection_fst_cases (db : DB) (cid u : Nat) :
    ((rejectConnection db cid u).fst = db)
    ∨ ∃ c, db.connections.find? (acceptGuard cid u) = some c
        ∧ (rejectConnection db cid u).fst.connections
            = db.connections.map (fun x =>
                if x.id == c.id then
                  { x with status := .rejected, lastInteraction := db.now }
                else x)
        ∧ (rejectConnection db cid u).fst.users = db.users
        ∧ (rejectConnection db cid u).fst.notifications = db.notifications := by
  unfold rejectConnection
  split
  · exact Or.inl rfl
  · rename_i c hfind
    exact Or.inr ⟨c, hfind, (by simp [rejectRecord]), rfl, rfl⟩

/-- An unfollow either leaves the store unchanged or erases the first accepted
document of the pair; notifications never change. -/
theorem unfollowUser_fst_cases (db : DB) (cur tgt : Nat) :
    ((unfollowUser db cur tgt).fst = db)
    ∨ ((unfollowUser db cur tgt).fst.connections
          = db.connections.eraseP (unfollowPred cur tgt)
        ∧ (unfollowUser db cur tgt).fst.notifications = db.notifications) := by
  unfold unfollowUser
  split
  · exact Or.inl rfl
  · exact Or.inr ⟨(by simp [incConnectionsCount]), (by simp [incConnectionsCount])⟩

/-! ## Sample store used in concrete witnesses -/

/-- A student account. -/
def alice : Account :=
  { id := 1, fullName := "Alice", role := .student, isVerified := true,
    isActive := true, createdAt := 0 }

/-- A verified active imaam account. -/
def bilal : Account :=
  { id := 2, fullName := "Bilal", role := .imaam, isVerified := true,
    isActive := true, createdAt := 0 }

/-- A store holding the two sample accounts and no connection documents. -/
def sampleDB : DB :=
  { users := [alice, bilal], connections := [], notifications := [],
    nextConnId := 1, now := 5 }

/-- The state after Alice successfully requests a connection with Bilal. -/
def dbAfterRequest : DB :=
  (requestConnection true sampleDB 1 2 (some "teach me tajweed") "Alice").fst

/-- The pending document created by that request. -/
def reqRecord : ConnRecord :=
  { id := 1, requester := 1, recipient := 2, status := .pending,
    ctype := .studentTeacher, message := "teach me tajweed", acceptedAt := none,
    lastInteraction := 5, createdAt := 5 }

/-- The state after Bilal accepts the request. -/
def dbAfterAccept : DB :=
  (acceptConnection true dbAfterRequest 1 2 "Bilal").fst

/-- The state after Bilal instead rejects the request. -/
def dbAfterReject : DB :=
  (rejectConnection dbAfterRequest 1 2).fst

/-- The document produced by accepting the sample request. -/
def accRecord : ConnRecord :=
  { id := 1, requester := 1, recipient := 2, status := .accepted,
    ctype := .studentTeacher, message := "teach me tajweed", acceptedAt := some 5,
    lastInteraction := 5, createdAt := 5 }

/-! ## C1 -/

/-- C1: the accept path issues its two relative-delta counter updates, but
userSchema declares no connectionsCount path and Mongoose strict mode
strips unknown update paths, so no accept ever changes a user document;
at the failing input the accept of Alice's pending request succeeds while
both user documents stay exactly as before, contradicting the claimed
plus-one on each connectionsCount. -/
theorem C1_accept_counts_unchanged :
    (∀ (notifOk : Bool) (db : DB) (cid u : Nat) (name : String),
        (acceptConnection notifOk db cid u name).fst.users = db.users)
      ∧ (acceptConnection true dbAfterRequest 1 2 "Bilal").snd = .ok accRecord
      ∧ (acceptConnection true dbAfterRequest 1 2 "Bilal").fst.users
        = dbAfterRequest.users := by
    refine ⟨?_, by decide, by decide⟩
    intro notifOk db cid u name
    unfold acceptConnection
    split
    · rfl
    · cases notifOk <;> rfl

/-! ## C2 -/

/-- C2 counterexample: when only the notification-store write fails, the
request operation itself reports failure (the error propagates through the
handler) even though the connection document was created. -/
theorem C2_counterexample :
    (requestConnection false sampleDB 1 2 (some "teach me tajweed") "Alice").snd
        = .error .notificationWriteFailed
      ∧ (requestConnection false sampleDB 1 2 (some "teach me tajweed") "Alice").fst.connections
        = [reqRecord] := by
  decide

/-- C2 amended: a notification-store failure does not roll back the
connection-state change (the stored connections, and for accept also the
counters, are exactly those of the successful run), but the triggering
operation does fail: whenever the run with a working notification store
succeeds, the run whose notification write fails reports that error. -/
theorem C2_notification_failure_semantics :
    (∀ (db : DB) (s t : Nat) (msg : Option String) (name : String),
        (requestConnection false db s t msg name).fst.connections
          = (requestConnection true db s t msg name).fst.connections
        ∧ (∀ doc, (requestConnection true db s t msg name).snd = .ok doc →
            (requestConnection false db s t msg name).snd
              = .error .notificationWriteFailed))
    ∧ (∀ (db : DB) (cid u : Nat) (name : String),
        (acceptConnection false db cid u name).fst.connections
          = (acceptConnection true db cid u name).fst.connections
        ∧ (acceptConnection false db cid u name).fst.users
          = (acceptConnection true db cid u name).fst.users
        ∧ (∀ doc, (acceptConnection true db cid u name).snd = .ok doc →
            (acceptConnection false db cid u name).snd
              = .error .notificationWriteFailed)) := by
  have htail : ∀ (db : DB) (s t : Nat) (msg : Option String) (name : String),
      (createAndNotifyRequest false db s t msg name).fst.connections
        = (createAndNotifyRequest true db s t msg name).fst.connections
      ∧ (∀ doc, (createAndNotifyRequest true db s t msg name).snd = .ok doc →
          (createAndNotifyRequest false db s t msg name).snd
            = .error .notificationWriteFailed) := by
    intro db s t msg name
    unfold createAndNotifyRequest
    split
    · exact ⟨rfl, fun doc h => by simp at h⟩
    · exact ⟨rfl, fun doc h => rfl⟩
  constructor
  · intro db s t msg name
    unfold requestConnection
    split
    · exact ⟨rfl, fun doc h => by simp at h⟩
    · split
      · exact ⟨rfl, fun doc h => by simp at h⟩
      · split
        · split
          · exact ⟨rfl, fun doc h => by simp at h⟩
          · split
            · exact ⟨rfl, fun doc h => by simp at h⟩
            · exact htail db s t msg name
        · exact htail db s t msg name
  · intro db cid u name
    unfold acceptConnection
    split
    · exact ⟨rfl, rfl, fun doc h => by simp at h⟩
    · exact ⟨rfl, rfl, fun doc h => rfl⟩

/-- Witness for C2 amended at the sample request. -/
theorem C2_witness :
    (requestConnection false sampleDB 1 2 (some "teach me tajweed") "Alice").fst.connections
        = (requestConnection true sampleDB 1 2 (some "teach me tajweed") "Alice").fst.connections
      ∧ (requestConnection false sampleDB 1 2 (some "teach me tajweed") "Alice").snd
        = .error .notificationWriteFailed :=
  ⟨(C2_notification_failure_semantics.1 sampleDB 1 2 (some "teach me tajweed") "Alice").1,
   (C2_notification_failure_semantics.1 sampleDB 1 2 (some "teach me tajweed") "Alice").2
     reqRecord (by decide)⟩

/-! ## C3 -/

/-- C3 counterexample: Alice requests Bilal, Bilal rejects, then Bilal
follows Alice — the reverse-direction follow passes the rejected-record
guard and the ordered-pair index, leaving two documents for the unordered
pair of users 1 and 2 in a state reachable by the exposed operations. -/
theorem C3_counterexample :
    (followUser dbAfterReject 2 1).fst.connections.countP (pairMatches 1 2) = 2 := by
  decide

/-- Every exposed operation preserves ordered-pair uniqueness of the
connection collection. -/
theorem step_preserves_orderedPairUnique (db db' : DB) (h : Step db db')
    (hu : orderedPairUnique db) : orderedPairUnique db' := by
  have hmapped : ∀ (f : ConnRecord → ConnRecord),
      (∀ x, (f x).requester = x.requester) → (∀ x, (f x).recipient = x.recipient) →
      (db.connections.map f).Pairwise
        (fun a b => a.requester ≠ b.requester ∨ a.recipient ≠ b.recipient) := by
    intro f hfr hfc
    refine List.Pairwise.map f ?_ hu
    intro a b hab
    rcases hab with h1 | h1
    · exact Or.inl (by rw [hfr a, hfr b]; exact h1)
    · exact Or.inr (by rw [hfc a, hfc b]; exact h1)
  cases h with
  | request notifOk db s t msg name =>
    rcases requestConnection_fst_cases notifOk db s t msg name with
      ⟨hc, _⟩ | ⟨doc, _, hreq, hrec, hc, _, hfree⟩
    · unfold orderedPairUnique; rw [hc]; exact hu
    · unfold orderedPairUnique
      rw [hc, List.pairwise_append]
      refine ⟨hu, List.pairwise_singleton _ _, ?_⟩
      intro a ha b hb
      rw [List.mem_singleton] at hb
      subst hb
      rw [hreq, hrec]
      by_contra hcon
      push_neg at hcon
      exact hfree a ha ⟨hcon.1, hcon.2⟩
  | follow db cur tgt =>
    rcases followUser_fst_cases db cur tgt with
      hsame | ⟨doc, _, hreq, hrec, hc, _, _, hfree⟩
    · unfold orderedPairUnique; rw [hsame]; exact hu
    · unfold orderedPairUnique
      rw [hc, List.pairwise_append]
      refine ⟨hu, List.pairwise_singleton _ _, ?_⟩
      intro a ha b hb
      rw [List.mem_singleton] at hb
      subst hb
      rw [hreq, hrec]
      by_contra hcon
      push_neg at hcon
      exact hfree a ha ⟨hcon.1, hcon.2⟩
  | accept notifOk db cid u name =>
    rcases acceptConnection_fst_cases notifOk db cid u name with hsame | ⟨c, _, hc⟩
    · unfold orderedPairUnique; rw [hsame]; exact hu
    · unfold orderedPairUnique
      rw [hc]
      refine hmapped _ (fun x => ?_) (fun x => ?_) <;> split <;> rfl
  | reject db cid u =>
    rcases rejectConnection_fst_cases db cid u with hsame | ⟨c, _, hc, _, _⟩
    · unfold orderedPairUnique; rw [hsame]; exact hu
    · unfold orderedPairUnique
      rw [hc]
      refine hmapped _ (fun x => ?_) (fun x => ?_) <;> split <;> rfl
  | unfollow db cur tgt =>
    rcases unfollowUser_fst_cases db cur tgt with hsame | ⟨hc, _⟩
    · unfold orderedPairUnique; rw [hsame]; exact hu
    · unfold orderedPairUnique
      rw [hc]
      exact List.Pairwise.sublist (List.eraseP_sublist _) hu

/-- C3 amended: in every state reachable by the exposed operations from a
store with no connection documents, at most one document exists per ORDERED
pair (the property the unique index maintains); uniqueness per unordered
pair fails, as the counterexample scenario shows. -/
theorem C3_ordered_pair_unique_reachable (db0 db : DB)
    (h0 : db0.connections = []) (hr : Reachable db0 db) :
    orderedPairUnique db := by
  induction hr with
  | refl => unfold orderedPairUnique; rw [h0]; exact List.Pairwise.nil
  | tail hsteps hstep ih => exact step_preserves_orderedPairUnique _ _ hstep ih

/-- Witness for C3 amended: the state after the sample request is reachable
and satisfies ordered-pair uniqueness. -/
theorem C3_witness : orderedPairUnique dbAfterRequest :=
  C3_ordered_pair_unique_reachable sampleDB dbAfterRequest rfl
    (Relation.ReflTransGen.single
      (Step.request true sampleDB 1 2 (some "teach me tajweed") "Alice"))

/-! ## C4 -/

/-- accept returns its NotFound error exactly when the triple guard finds no
document. -/
theorem accept_notFound_iff (notifOk : Bool) (db : DB) (cid u : Nat) (name : String) :
    (acceptConnection notifOk db cid u name).snd
        = .error (.app ⟨"Connection request not found", 404⟩)
      ↔ db.connections.find? (acceptGuard cid u) = none := by
  unfold acceptConnection
  cases hfind : db.connections.find? (acceptGuard cid u) with
  | none => exact ⟨fun _ => rfl, fun _ => rfl⟩
  | some c =>
    cases notifOk <;>
      exact ⟨fun h => by simp at h, fun h => by simp at h⟩

/-- The connection collection after an accept whose guard found document c. -/
theorem accept_connections_of_found (notifOk : Bool) (db : DB) (cid u : Nat)
    (name : String) (c : ConnRecord)
    (hfind : db.connections.find? (acceptGuard cid u) = some c) :
    (acceptConnection notifOk db cid u name).fst.connections
      = db.connections.map fun x =>
          if x.id == c.id then
            { x with
              status := .accepted
              acceptedAt := some db.now
              lastInteraction := db.now }
          else x := by
  unfold acceptConnection
  rw [hfind]
  cases notifOk <;> rfl

/-- C4: accept fails with the NotFound error exactly when no document
matches the triple guard (_id, recipient = acting user, status pending);
hence a second sequential accept of the same id yields NotFound, and the
requester accepting their own request always gets NotFound. -/
theorem C4_accept_guard_semantics :
    (∀ (notifOk : Bool) (db : DB) (cid u : Nat) (name : String),
        (acceptConnection notifOk db cid u name).snd
            = .error (.app ⟨"Connection request not found", 404⟩)
          ↔ db.connections.find? (acceptGuard cid u) = none)
    ∧ (∀ (db : DB) (cid u : Nat) (name : String) (doc : ConnRecord),
        (acceptConnection true db cid u name).snd = .ok doc →
        (acceptConnection true (acceptConnection true db cid u name).fst cid u name).snd
          = .error (.app ⟨"Connection request not found", 404⟩))
    ∧ (∀ (notifOk : Bool) (db : DB) (cid : Nat) (name : String) (c : ConnRecord),
        c ∈ db.connections → c.id = cid → c.requester ≠ c.recipient →
        connIdsUnique db →
        (acceptConnection notifOk db cid c.requester name).snd
          = .error (.app ⟨"Connection request not found", 404⟩)) := by
  refine ⟨accept_notFound_iff, ?_, ?_⟩
  · intro db cid u name doc h
    cases hfind : db.connections.find? (acceptGuard cid u) with
    | none =>
      unfold acceptConnection at h
      rw [hfind] at h
      simp at h
    | some c =>
      have hguard := List.find?_some hfind
      have hcid : c.id = cid := by
        unfold acceptGuard at hguard
        simp only [Bool.and_eq_true, beq_iff_eq] at hguard
        exact hguard.1.1
      have hconn := accept_connections_of_found true db cid u name c hfind
      have hnone : (acceptConnection true db cid u name).fst.connections.find?
          (acceptGuard cid u) = none := by
        rw [hconn, List.find?_eq_none]
        intro x hx
        rw [List.mem_map] at hx
        obtain ⟨y, hy, hxy⟩ := hx
        subst hxy
        by_cases hid : (y.id == c.id) = true
        · rw [if_pos hid]
          unfold acceptGuard
          simp [show (ConnStatus.accepted == ConnStatus.pending) = false from rfl]
        · rw [if_neg hid]
          unfold acceptGuard
          have hyne : y.id ≠ cid := by
            rw [← hcid]
            intro hcon
            exact hid (by simp [hcon])
          simp [hyne]
      exact (accept_notFound_iff true _ cid u name).mpr hnone
  · intro notifOk db cid name c hmem hid hne huniq
    have hsymm : Symmetric (fun a b : ConnRecord => a.id ≠ b.id) :=
      fun _ _ h => Ne.symm h
    have hforall := List.Pairwise.forall hsymm huniq
    have hnone : db.connections.find? (acceptGuard cid c.requester) = none := by
      rw [List.find?_eq_none]
      intro x hx hg
      unfold acceptGuard at hg
      simp only [Bool.and_eq_true, beq_iff_eq] at hg
      obtain ⟨⟨h1, h2⟩, h3⟩ := hg
      have hxc : x = c := by
        by_contra hne2
        exact hforall hx hmem hne2 (by rw [h1, hid])
      rw [hxc] at h2
      exact hne h2.symm
    exact (accept_notFound_iff notifOk db cid c.requester name).mpr hnone

/-- Witness for C4: on the sample data, accepting against an empty ledger is
NotFound, accepting twice yields NotFound the second time, and the
requester accepting their own pending request gets NotFound. -/
theorem C4_witness :
    ((acceptConnection true sampleDB 1 2 "Bilal").snd
        = .error (.app ⟨"Connection request not found", 404⟩))
      ∧ ((acceptConnection true (acceptConnection true dbAfterRequest 1 2 "Bilal").fst
            1 2 "Bilal").snd
        = .error (.app ⟨"Connection request not found", 404⟩))
      ∧ ((acceptConnection true dbAfterRequest 1 1 "Alice").snd
        = .error (.app ⟨"Connection request not found", 404⟩)) :=
  ⟨(C4_accept_guard_semantics.1 true sampleDB 1 2 "Bilal").mpr (by decide),
   C4_accept_guard_semantics.2.1 dbAfterRequest 1 2 "Bilal" accRecord (by decide),
   C4_accept_guard_semantics.2.2 true dbAfterRequest 1 "Alice" reqRecord
     (by decide) (by decide) (by decide) (by decide)⟩

/-! ## C5 -/

/-- A Conflict outcome of requestConnection: one of the two duplicate-guard
errors of the controller. -/
abbrev isConflict (r : Except OpError ConnRecord) : Prop :=
  r = .error (.app ⟨"Already connected to this Imaam", 400⟩)
    ∨ r = .error (.app ⟨"Connection request already pending", 400⟩)

/-- The document a successful insert by the request controller appends. -/
def newPendingDoc (db : DB) (s t : Nat) (ty : ConnType) (m : String) : ConnRecord :=
  { id := db.nextConnId, requester := s, recipient := t, status := .pending,
    ctype := ty, message := m, acceptedAt := none, lastInteraction := db.now,
    createdAt := db.now }

/-- The request tail can only succeed, fail on the notification write, fail
with the duplicate-key error, or fail on the self-connection pre-save
check. -/
theorem createAndNotifyRequest_snd_cases (notifOk : Bool) (db : DB) (s t : Nat)
    (msg : Option String) (name : String) :
    (∃ doc, (createAndNotifyRequest notifOk db s t msg name).snd = .ok doc)
    ∨ (createAndNotifyRequest notifOk db s t msg name).snd
        = .error .notificationWriteFailed
    ∨ (createAndNotifyRequest notifOk db s t msg name).snd = .error .duplicateKey
    ∨ (createAndNotifyRequest notifOk db s t msg name).snd
        = .error (.app ⟨"Cannot connect to yourself", 400⟩) := by
  unfold createAndNotifyRequest
  split
  · rename_i e hins
    unfold insertConnection at hins
    split at hins
    · injection hins with h
      exact Or.inr (Or.inr (Or.inr (by rw [← h])))
    · split at hins
      · injection hins with h
        exact Or.inr (Or.inr (Or.inl (by rw [← h])))
      · cases hins
  · cases notifOk
    · exact Or.inr (Or.inl rfl)
    · exact Or.inl ⟨_, rfl⟩

/-- The request tail never reports a Conflict: the conflict errors come from
the duplicate guard alone. -/
theorem createAndNotifyRequest_not_conflict (notifOk : Bool) (db : DB) (s t : Nat)
    (msg : Option String) (name : String) :
    ¬ isConflict (createAndNotifyRequest notifOk db s t msg name).snd := by
  intro hcon
  rcases createAndNotifyRequest_snd_cases notifOk db s t msg name with
    ⟨doc, h⟩ | h | h | h
  · rcases hcon with hc | hc <;> rw [h] at hc <;> simp at hc
  · rcases hcon with hc | hc <;> rw [h] at hc <;> exact absurd hc (by decide)
  · rcases hcon with hc | hc <;> rw [h] at hc <;> exact absurd hc (by decide)
  · rcases hcon with hc | hc <;> rw [h] at hc <;> exact absurd hc (by decide)

/-- When the duplicate guard falls through with no same-ordered-pair document
present, the request tail appends the fresh pending document. -/
theorem createAndNotifyRequest_inserts (notifOk : Bool) (db : DB) (s t : Nat)
    (msg : Option String) (name : String)
    (hst : (s == t) = false)
    (hfree : ∀ x ∈ db.connections, ¬(x.requester = s ∧ x.recipient = t)) :
    (createAndNotifyRequest notifOk db s t msg name).fst.connections
      = db.connections ++ [newPendingDoc db s t .studentTeacher (msg.getD "")] := by
  have hany : (db.connections.any fun c =>
      c.requester == s && c.recipient == t) = false := by
    rw [List.any_eq_false]
    intro x hx hcon
    simp only [Bool.and_eq_true, beq_iff_eq] at hcon
    exact hfree x hx hcon
  have hins : insertConnection db s t ConnType.studentTeacher (msg.getD "")
      ConnStatus.pending
      = .ok ({ db with
               connections := db.connections
                 ++ [newPendingDoc db s t .studentTeacher (msg.getD "")]
               nextConnId := db.nextConnId + 1 },
             newPendingDoc db s t .studentTeacher (msg.getD "")) := by
    unfold insertConnection
    rw [hst, hany]
    rfl
  unfold createAndNotifyRequest
  rw [hins]
  cases notifOk <;> rfl

/-- C5 counterexample: after Alice's request is rejected, Alice requesting
Bilal again passes the stated Conflict guard (the found record is rejected)
yet no new pending record is inserted — the insert fails on the unique
ordered-pair index with the duplicate-key error. -/
theorem C5_counterexample :
    (requestConnection true dbAfterReject 1 2 none "Alice").snd
        = .error .duplicateKey
      ∧ (requestConnection true dbAfterReject 1 2 none "Alice").fst
        = dbAfterReject := by
  decide

/-- C5 amended: with the self and imaam validations passing and at most one
document on the unordered pair, requestConnection reports Conflict exactly
when that document is accepted or pending; a rejected or blocked document
does not trigger the Conflict guard, but when it lies in the same ordered
direction the insert fails with the duplicate-key error and the store is
unchanged, and only otherwise is a fresh pending document inserted. -/
theorem C5_request_conflict_semantics (notifOk : Bool) (db : DB) (s t : Nat)
    (msg : Option String) (name : String)
    (hne : t ≠ s)
    (himaam : (db.users.find? fun a =>
        a.id == t && a.role == Role.imaam && a.isVerified && a.isActive).isSome
      = true)
    (hcount : unorderedPairAtMostOne db s t) :
    (isConflict (requestConnection notifOk db s t msg name).snd
        ↔ ∃ c ∈ db.connections, pairMatches s t c = true
            ∧ (c.status = ConnStatus.accepted ∨ c.status = ConnStatus.pending))
    ∧ (getConnection db s t = none →
        (requestConnection notifOk db s t msg name).fst.connections
          = db.connections ++ [newPendingDoc db s t .studentTeacher (msg.getD "")])
    ∧ (∀ c, getConnection db s t = some c →
        (c.status = ConnStatus.rejected ∨ c.status = ConnStatus.blocked) →
        c.requester = s →
        (requestConnection notifOk db s t msg name).snd = .error .duplicateKey
          ∧ (requestConnection notifOk db s t msg name).fst = db)
    ∧ (∀ c, getConnection db s t = some c →
        (c.status = ConnStatus.rejected ∨ c.status = ConnStatus.blocked) →
        c.requester ≠ s →
        (requestConnection notifOk db s t msg name).fst.connections
          = db.connections
            ++ [newPendingDoc db s t .studentTeacher (msg.getD "")]) := by
  have hts : (t == s) = false := by simp [hne]
  have hst : (s == t) = false := by
    simp only [beq_eq_false_iff_ne, ne_eq]
    exact fun h => hne h.symm
  obtain ⟨ua, hua⟩ := Option.isSome_iff_exists.mp himaam
  have huniqs := countP_le_one_unique db.connections (pairMatches s t) hcount
  have hmain : requestConnection notifOk db s t msg name
      = match getConnection db s t with
        | some c =>
          if c.status = ConnStatus.accepted then
            (db, .error (.app ⟨"Already connected to this Imaam", 400⟩))
          else if c.status = ConnStatus.pending then
            (db, .error (.app ⟨"Connection request already pending", 400⟩))
          else createAndNotifyRequest notifOk db s t msg name
        | none => createAndNotifyRequest notifOk db s t msg name := by
    unfold requestConnection
    rw [hts, hua]
    rfl
  rw [hmain]
  cases hget : getConnection db s t with
  | none =>
    simp only []
    have hno : ∀ x ∈ db.connections, ¬ pairMatches s t x = true :=
      List.find?_eq_none.mp hget
    refine ⟨?_, ?_, ?_, ?_⟩
    · refine iff_of_false (createAndNotifyRequest_not_conflict _ _ _ _ _ _) ?_
      rintro ⟨c', hc', hpm', _⟩
      exact hno c' hc' hpm'
    · intro _
      exact createAndNotifyRequest_inserts notifOk db s t msg name hst
        (fun x hx hcon => hno x hx (by simp [pairMatches, hcon.1, hcon.2]))
    · intro c hc
      cases hc
    · intro c hc
      cases hc
  | some c =>
    simp only []
    have hmem : c ∈ db.connections := List.mem_of_find?_eq_some hget
    have hpm : pairMatches s t c = true := List.find?_some hget
    by_cases hacc : c.status = ConnStatus.accepted
    · rw [if_pos hacc]
      refine ⟨iff_of_true (Or.inl rfl) ⟨c, hmem, hpm, Or.inl hacc⟩, ?_, ?_, ?_⟩
      · intro h; cases h
      · intro c' hc' hstat _
        injection hc' with hc'
        rw [← hc'] at hstat
        rcases hstat with h | h <;> rw [hacc] at h <;> cases h
      · intro c' hc' hstat _
        injection hc' with hc'
        rw [← hc'] at hstat
        rcases hstat with h | h <;> rw [hacc] at h <;> cases h
    · rw [if_neg hacc]
      by_cases hpend : c.status = ConnStatus.pending
      · rw [if_pos hpend]
        refine ⟨iff_of_true (Or.inr rfl) ⟨c, hmem, hpm, Or.inr hpend⟩, ?_, ?_, ?_⟩
        · intro h; cases h
        · intro c' hc' hstat _
          injection hc' with hc'
          rw [← hc'] at hstat
          rcases hstat with h | h <;> rw [hpend] at h <;> cases h
        · intro c' hc' hstat _
          injection hc' with hc'
          rw [← hc'] at hstat
          rcases hstat with h | h <;> rw [hpend] at h <;> cases h
      · rw [if_neg hpend]
        refine ⟨?_, ?_, ?_, ?_⟩
        · refine iff_of_false (createAndNotifyRequest_not_conflict _ _ _ _ _ _) ?_
          rintro ⟨c', hc', hpm', hstat'⟩
          have : c' = c := huniqs c' hc' c hmem hpm' hpm
          rw [this] at hstat'
          rcases hstat' with h | h
          · exact hacc h
          · exact hpend h
        · intro h; cases h
        · intro c' hc' _ hreq
          injection hc' with hc'
          subst hc'
          have hrec : c.recipient = t := by
            simp only [pairMatches, Bool.or_eq_true, Bool.and_eq_true,
              beq_iff_eq] at hpm
            rcases hpm with ⟨_, h2⟩ | ⟨h1, _⟩
            · exact h2
            · rw [hreq] at h1
              exact absurd h1.symm hne
          have hany : (db.connections.any fun x =>
              x.requester == s && x.recipient == t) = true := by
            rw [List.any_eq_true]
            exact ⟨c, hmem, (by simp [hreq, hrec])⟩
          have hins : insertConnection db s t ConnType.studentTeacher (msg.getD "")
              ConnStatus.pending = .error .duplicateKey := by
            unfold insertConnection
            rw [hst, hany]
            rfl
          constructor
          · show (createAndNotifyRequest notifOk db s t msg name).snd = _
            unfold createAndNotifyRequest
            rw [hins]
          · show (createAndNotifyRequest notifOk db s t msg name).fst = db
            unfold createAndNotifyRequest
            rw [hins]
        · intro c' hc' _ hreq
          injection hc' with hc'
          subst hc'
          refine createAndNotifyRequest_inserts notifOk db s t msg name hst ?_
          intro x hx ⟨hx1, hx2⟩
          have hpmx : pairMatches s t x = true := by simp [pairMatches, hx1, hx2]
          have hxc : x = c := huniqs x hx c hmem hpmx hpm
          rw [hxc] at hx1
          exact hreq hx1

/-- Witness for C5 amended on the empty sample ledger: no Conflict, and the
fresh pending document is appended. -/
theorem C5_witness :
    (isConflict (requestConnection true sampleDB 1 2 (some "teach me tajweed")
          "Alice").snd
        ↔ ∃ c ∈ sampleDB.connections, pairMatches 1 2 c = true
            ∧ (c.status = ConnStatus.accepted ∨ c.status = ConnStatus.pending))
      ∧ (requestConnection true sampleDB 1 2 (some "teach me tajweed")
          "Alice").fst.connections
        = sampleDB.connections
          ++ [newPendingDoc sampleDB 1 2 .studentTeacher "teach me tajweed"] :=
  ⟨(C5_request_conflict_semantics true sampleDB 1 2 (some "teach me tajweed")
      "Alice" (by decide) (by decide) (by decide)).1,
   (C5_request_conflict_semantics true sampleDB 1 2 (some "teach me tajweed")
      "Alice" (by decide) (by decide) (by decide)).2.1 (by decide)⟩

/-! ## C6 -/

/-- A reachable store holding rejected(1 to 2) next to accepted(2 to 1):
Alice's rejected teacher request, then Bilal's peer follow of Alice, which
Alice accepted. -/
def dbCross : DB :=
  (acceptConnection true (followUser dbAfterReject 2 1).fst 2 1 "Alice").fst

/-- dbCross after Alice unfollows Bilal: the accepted document is deleted,
the rejected one remains. -/
def dbCrossUnfollowed : DB :=
  (unfollowUser dbCross 1 2).fst

/-- C7: evaluation of the code at the failing inputs.  Unfollowing the
sample accepted connection deletes the document and succeeds, yet leaves
both user documents unchanged — the two counter updates target the
connectionsCount path absent from userSchema, so strict mode strips them
and no decrement happens.  And in the reachable cross state a follow
issued right after a successful unfollow fails with the duplicate-key
error on the leftover rejected document instead of succeeding as a fresh
request. -/
theorem C7_unfollow_divergences :
    ((unfollowUser dbAfterAccept 1 2).snd = .ok ()
      ∧ (unfollowUser dbAfterAccept 1 2).fst.connections = []
      ∧ (unfollowUser dbAfterAccept 1 2).fst.users = dbAfterAccept.users)
    ∧ ((unfollowUser dbCross 1 2).snd = .ok ()
      ∧ (unfollowUser dbCross 1 2).fst.connections
          = [{ reqRecord with status := ConnStatus.rejected }]
      ∧ (followUser dbCrossUnfollowed 1 2).snd = .error .duplicateKey) := by
  decide

/-! ## C8 -/

/-- A notification input with an explicitly supplied medium priority. -/
def likeNotifData : NotifData :=
  { recipient := 1, sender := none, ntype := .postLike, title := "Nice post",
    message := "Someone liked your post", relatedEntity := none,
    relatedEntityType := none, priority := some .medium, actionData := [] }

/-- A notification input with no supplied priority. -/
def plainLikeNotifData : NotifData :=
  { recipient := 1, sender := none, ntype := .postLike, title := "Nice post",
    message := "Someone liked your post", relatedEntity := none,
    relatedEntityType := none, priority := none, actionData := [] }

/-- A notification input with an explicitly supplied urgent priority. -/
def urgentNotifData : NotifData :=
  { recipient := 1, sender := none, ntype := .postLike, title := "Nice post",
    message := "Someone liked your post", relatedEntity := none,
    relatedEntityType := none, priority := some .urgent, actionData := [] }

/-- C8 counterexample: a caller-supplied medium priority on a post-like
notification is not kept as given — the pre-save hook overrides it with the
table value low. -/
theorem C8_counterexample :
    (createNotification likeNotifData).priority = Priority.low
      ∧ (createNotification likeNotifData).priority ≠ Priority.medium := by
  decide

/-- C8 amended: the priority is taken from the type table exactly when the
caller supplied no priority or supplied medium; any other caller-supplied
priority is kept.  Every schema-valid type has a table entry, so the
medium default for types outside the table is unreachable. -/
theorem C8_priority_assignment (d : NotifData) :
    ((d.priority = none ∨ d.priority = some Priority.medium) →
        (createNotification d).priority = priorityMap d.ntype)
    ∧ (∀ p, d.priority = some p → p ≠ Priority.medium →
        (createNotification d).priority = p) := by
  constructor
  · intro h
    unfold createNotification preSaveNotif
    rcases h with h | h <;> rw [h] <;> rfl
  · intro p hp hne
    unfold createNotification preSaveNotif
    rw [hp]
    split
    · rename_i hcon
      exact absurd hcon hne
    · rfl

/-- Witness for C8: a missing priority is filled from the table, and a
supplied urgent priority is kept. -/
theorem C8_witness :
    (createNotification plainLikeNotifData).priority
        = priorityMap plainLikeNotifData.ntype
      ∧ (createNotification urgentNotifData).priority = Priority.urgent :=
  ⟨(C8_priority_assignment plainLikeNotifData).1 (Or.inl rfl),
   (C8_priority_assignment urgentNotifData).2 Priority.urgent rfl (by decide)⟩

/-! ## C9 -/

/-- The pagination object of a response body: the pagination field of its
data object (jNull when absent). -/
def paginationOf (j : JVal) : JVal :=
  ((j.getField "data").bind fun d => d.getField "pagination").getD JVal.jNull

/-- C9 counterexample: the pending-requests response for the sample recipient
is exactly success plus a bare data array — it carries none of the
pagination fields anywhere. -/
theorem C9_counterexample :
    getConnectionRequestsBody dbAfterRequest 2 1 10
      = JVal.jObj [("success", JVal.jBool true),
          ("data", JVal.jArr [connToJson reqRecord])] := by
  rfl

/-- C9 amended: the pending-requests list response is only success plus a
bare data array; the imaam directory list carries the five pagination
fields with totalItems, while the users list carries totalUsers in place
of totalItems. -/
theorem C9_paged_response_shapes (db : DB) (userId page limit : Nat) :
    (getConnectionRequestsBody db userId page limit
        = JVal.jObj [("success", JVal.jBool true),
            ("data", JVal.jArr
              ((getPendingConnections db userId page limit).map connToJson))])
    ∧ (∀ k ∈ ["currentPage", "totalPages", "totalItems", "hasNext", "hasPrev"],
        (paginationOf (getImaamListBody db page limit)).hasField k = true)
    ∧ (∀ k ∈ ["currentPage", "totalPages", "totalUsers", "hasNext", "hasPrev"],
        (paginationOf (getUsersBody db page limit)).hasField k = true)
    ∧ (paginationOf (getUsersBody db page limit)).hasField "totalItems" = false := by
  refine ⟨rfl, ?_, ?_, rfl⟩
  · intro k hk
    fin_cases hk <;> rfl
  · intro k hk
    fin_cases hk <;> rfl

/-- Witness for C9 amended at the sample store. -/
theorem C9_witness :
    (paginationOf (getImaamListBody sampleDB 1 10)).hasField "totalItems" = true
      ∧ (paginationOf (getUsersBody sampleDB 1 10)).hasField "totalUsers" = true
      ∧ (paginationOf (getUsersBody sampleDB 1 10)).hasField "totalItems" = false :=
  ⟨(C9_paged_response_shapes sampleDB 2 1 10).2.1 "totalItems" (by simp),
   (C9_paged_response_shapes sampleDB 2 1 10).2.2.1 "totalUsers" (by simp),
   (C9_paged_response_shapes sampleDB 2 1 10).2.2.2⟩

/-! ## C10 -/

/-- preSaveNotif only touches the priority field. -/
theorem preSaveNotif_fields (n : Notif) :
    (preSaveNotif n).ntype = n.ntype
      ∧ (preSaveNotif n).recipient = n.recipient
      ∧ (preSaveNotif n).sender = n.sender := by
  unfold preSaveNotif
  split <;> exact ⟨rfl, rfl, rfl⟩

/-- C10: a follow never changes the notification collection (in particular
the recipient gains none), while a successful request-connection appends
exactly one connection-request notification addressed to the recipient. -/
theorem C10_follow_emits_no_notification :
    (∀ (db : DB) (cur tgt : Nat),
        (followUser db cur tgt).fst.notifications = db.notifications)
    ∧ (∀ (notifOk : Bool) (db : DB) (s t : Nat) (msg : Option String)
          (name : String) (doc : ConnRecord),
        (requestConnection notifOk db s t msg name).snd = .ok doc →
        ∃ n, (requestConnection notifOk db s t msg name).fst.notifications
              = db.notifications ++ [n]
          ∧ n.ntype = .connectionRequest ∧ n.recipient = t ∧ n.sender = some s) := by
  constructor
  · intro db cur tgt
    rcases followUser_fst_cases db cur tgt with hsame | ⟨_, _, _, _, _, _, hn, _⟩
    · rw [hsame]
    · exact hn
  · intro notifOk db s t msg name doc h
    have htail : ∀ doc, (createAndNotifyRequest notifOk db s t msg name).snd = .ok doc →
        ∃ n, (createAndNotifyRequest notifOk db s t msg name).fst.notifications
              = db.notifications ++ [n]
          ∧ n.ntype = .connectionRequest ∧ n.recipient = t ∧ n.sender = some s := by
      intro doc h
      unfold createAndNotifyRequest at h ⊢
      split at h
      · simp at h
      · rename_i db1 doc1 hins
        obtain ⟨_, _, hnotifs, _, _⟩ := insertConnection_pending_ok db s t _ _ db1 doc1 hins
        cases notifOk
        · simp at h
        · refine ⟨createNotification
              { recipient := t, sender := some s, ntype := .connectionRequest,
                title := "New Connection Request",
                message := name ++ " wants to connect with you",
                relatedEntity := some doc1.id,
                relatedEntityType := some .connection,
                priority := none,
                actionData :=
                  [("connectionId", toString doc1.id), ("requesterName", name)] },
            ?_, ?_, ?_, ?_⟩
          · rw [← hnotifs]
            rfl
          · exact (preSaveNotif_fields _).1
          · exact (preSaveNotif_fields _).2.1
          · exact (preSaveNotif_fields _).2.2
    unfold requestConnection at h ⊢
    split at h
    · simp at h
    · rename_i h1
      simp only [Bool.not_eq_true] at h1
      split at h
      · simp at h
      · rename_i ua heq
        split at h
        · rename_i c heq2
          split at h
          · simp at h
          · rename_i h2
            split at h
            · simp at h
            · rename_i h3
              simp only [h1, Bool.false_eq_true, if_false, heq, heq2,
                if_neg h2, if_neg h3]
              exact htail doc h
        · rename_i heq2
          simp only [h1, Bool.false_eq_true, if_false, heq, heq2]
          exact htail doc h

/-- Witness for C10: the sample follow leaves notifications unchanged, and
the sample request appends a connection-request notification for the
recipient. -/
theorem C10_witness :
    (followUser sampleDB 1 2).fst.notifications = sampleDB.notifications
      ∧ ∃ n, (requestConnection true sampleDB 1 2 (some "teach me tajweed")
              "Alice").fst.notifications
            = sampleDB.notifications ++ [n]
          ∧ n.ntype = .connectionRequest ∧ n.recipient = 2 ∧ n.sender = some 1 :=
  ⟨C10_follow_emits_no_notification.1 sampleDB 1 2,
   C10_follow_emits_no_notification.2 true sampleDB 1 2 (some "teach me tajweed")
     "Alice" reqRecord (by decide)⟩

end DeenVerse
